import Mathlib

/-!
Shallow embedding of the e-commerce store status checking script
(src/checkStores.js and the near-duplicate src/unnamed/part_000).

The script classifies store URLs in three sequential stages
(platform detection, liveness, password-gate detection), driven by a
retrying HTTP layer and a batching / limiter-based scheduler over CSV rows.

Modelling conventions:
* HTTP is modelled by an oracle giving the outcome of each attempt of a
  call site: `Except AxiosError Response`.  A `Response` carries the
  status, the powered-by header, the (abstracted) HTML body and the
  redirect bookkeeping fields that the script reads.
* HTML inspection (cheerio selector tests) is an external capability in
  the script; the body is abstracted to the three boolean selector
  results the script asks for.
* JavaScript string operations (`includes`, `startsWith`, `endsWith`,
  falsiness of strings, `a || b`) are modelled by executable functions on
  `String` / `Option String` defined below.
-/

/-- Abstraction of an HTML document: the results of the three cheerio
selector tests the script performs
(`input[type="password"]`, `meta[name="shopify-checkout-api-token"]`,
`script[src*="shopify"]`). -/
structure Html where
  hasPasswordInput : Bool
  hasShopifyMeta : Bool
  hasShopifyScript : Bool
deriving DecidableEq, Repr

/-- An axios response, restricted to the fields the script reads:
`response.status`, `response.headers['powered-by']`, `response.data`
(abstracted as `Html`), `response.request.res.responseUrl` and
`response.config.url`.  A JS `undefined` field is `none`. -/
structure Response where
  status : Nat
  poweredBy : Option String
  body : Html
  responseUrl : Option String
  configUrl : Option String
deriving DecidableEq, Repr

/-- An axios error: the script only reads `error.response` (which is
absent for network-level failures such as timeouts). -/
structure AxiosError where
  response : Option Response
deriving DecidableEq, Repr

/-- JS `s.includes(pat)` on exploded strings: does `pat` occur as a
contiguous substring? -/
def charsIncludes (pat : List Char) : List Char → Bool
  | [] => pat.isEmpty
  | c :: cs => pat.isPrefixOf (c :: cs) || charsIncludes pat cs

/-- JS `s.includes(pat)`. -/
def strIncludes (s pat : String) : Bool :=
  charsIncludes pat.toList s.toList

/-- JS `s.startsWith(pat)`. -/
def strStartsWith (s pat : String) : Bool :=
  pat.toList.isPrefixOf s.toList

/-- JS `s.endsWith(pat)`. -/
def strEndsWith (s pat : String) : Bool :=
  pat.toList.isSuffixOf s.toList

/-- JS `a || b` on two possibly-undefined strings: the empty string and
`undefined` are falsy. -/
def jsOrStr (a b : Option String) : Option String :=
  match a with
  | none => b
  | some s => if s == "" then b else some s

/-- The trace of one `axiosRetry` call: the value returned or error
thrown, the number of HTTP attempts actually issued, and the backoff
waits (in ms) performed between attempts. -/
structure RetryTrace where
  result : Except AxiosError Response
  attempts : Nat
  waits : List Nat
deriving Repr

/-- Loop body of `axiosRetry` (checkStores.js lines 18-31).  `i` is the
0-based attempt index, `remaining` the number of loop iterations left
(`retries - i`).  On failure with `i < retries - 1` (i.e. `remaining`
still above 1) the script waits `backoff * (i + 1)` ms and retries;
on the last allowed attempt it rethrows the error.  The `remaining = 0`
case is unreachable from `axiosRetry` with `retries ≥ 1` (the JS loop
with `retries = 0` would fall through returning `undefined`; every call
site uses the default `retries = 2`). -/
def axiosRetryGo (net : Nat → Except AxiosError Response) (backoff : Nat) :
    Nat → Nat → RetryTrace
  | i, 0 => { result := .error { response := none }, attempts := i, waits := [] }
  | i, remaining + 1 =>
    match net i with
    | .ok r => { result := .ok r, attempts := i + 1, waits := [] }
    | .error e =>
      if remaining = 0 then
        { result := .error e, attempts := i + 1, waits := [] }
      else
        let t := axiosRetryGo net backoff (i + 1) remaining
        { result := t.result, attempts := t.attempts,
          waits := backoff * (i + 1) :: t.waits }

/-- `axiosRetry(url, options, retries, backoff)` (checkStores.js lines
18-31), with the network modelled as an oracle `net` giving the outcome
of the `i`-th attempt. -/
def axiosRetry (net : Nat → Except AxiosError Response)
    (retries backoff : Nat) : RetryTrace :=
  axiosRetryGo net backoff 0 retries

/-- Return value of `isShopifyStore` (a pair of booleans in the JS). -/
structure ShopifyCheck where
  isShopify : Bool
  isPasswordProtected : Bool
deriving DecidableEq, Repr

/-- JS `poweredByHeader && poweredByHeader.includes('Shopify')`. -/
def poweredByShopify (h : Option String) : Bool :=
  match h with
  | none => false
  | some s => if s == "" then false else strIncludes s "Shopify"

/-- `isShopifyStore(url)` (checkStores.js lines 33-66).  The GET request
on line 35 is issued first; only then is the URL marker inspected inside
the `try` block, so the marker branch is reached only when the request
succeeded.  The catch block inspects `error.response`. -/
def isShopifyStore (url : String) (net : Nat → Except AxiosError Response) :
    ShopifyCheck :=
  match (axiosRetry net 2 3000).result with
  | .ok response =>
    if strIncludes url ".myshopify.com" || strIncludes url "shopify.com" then
      { isShopify := true, isPasswordProtected := false }
    else if poweredByShopify response.poweredBy then
      { isShopify := true, isPasswordProtected := false }
    else
      { isShopify := response.body.hasShopifyMeta || response.body.hasShopifyScript,
        isPasswordProtected := false }
  | .error e =>
    match e.response with
    | some r =>
      if poweredByShopify r.poweredBy then
        { isShopify := true, isPasswordProtected := false }
      else if r.status == 404 then
        { isShopify := false, isPasswordProtected := false }
      else
        { isShopify := false, isPasswordProtected := false }
    | none => { isShopify := false, isPasswordProtected := false }

/-- `checkURL(url)` (checkStores.js lines 68-86): liveness probe. -/
def checkURL (net : Nat → Except AxiosError Response) : Bool :=
  match (axiosRetry net 2 3000).result with
  | .ok response => response.status == 200
  | .error e =>
    match e.response with
    | some r =>
      if poweredByShopify r.poweredBy then false
      else if r.status == 404 then false
      else false
    | none => false

/-- `checkPasswordProtection(url)` (checkStores.js lines 88-126).  The
single GET (no retry wrapper) is issued with `maxRedirects: 5` and
`validateStatus: status => status < 400`; `outcome` is its result under
that configuration.  The final URL is
`response.request.res.responseUrl || response.config.url`. -/
def checkPasswordProtection (outcome : Except AxiosError Response) : Bool :=
  match outcome with
  | .ok response =>
    match jsOrStr response.responseUrl response.configUrl with
    | none => false
    | some u =>
      if u == "" then false
      else if strEndsWith u "/password" then response.body.hasPasswordInput
      else false
  | .error e =>
    match e.response with
    | some r =>
      if r.status == 301 || r.status == 302 then false
      else if r.status == 404 then false
      else false
    | none => false

/-- The per-URL classification record returned by `processURL`. -/
structure ProbeResult where
  isShopify : Bool
  isActive : Bool
  isPasswordProtected : Bool
deriving DecidableEq, Repr

/-- Network behaviour for one `processURL` call: attempt oracles for the
stage-1 and stage-2 `axiosRetry` calls and the single stage-3 GET. -/
structure Network where
  stage1 : Nat → Except AxiosError Response
  stage2 : Nat → Except AxiosError Response
  stage3 : Except AxiosError Response

/-- `processURL(url)` (checkStores.js lines 129-147): protocol
normalization followed by the three short-circuiting stages. -/
def processURL (url : String) (net : Network) : ProbeResult :=
  let url := if !strStartsWith url "http://" && !strStartsWith url "https://" then
               "http://" ++ url
             else url
  let isShopify := (isShopifyStore url net.stage1).isShopify
  if isShopify then
    let isActive := checkURL net.stage2
    if isActive then
      { isShopify := isShopify, isActive := isActive,
        isPasswordProtected := checkPasswordProtection net.stage3 }
    else
      { isShopify := isShopify, isActive := isActive, isPasswordProtected := false }
  else
    { isShopify := isShopify, isActive := false, isPasswordProtected := false }

/-- One input row of the checkStores.js variant: the `URL` and
`ClientId` columns read on lines 159-160. -/
structure TaskRow where
  url : String
  clientId : String

/-- The record the checkStores.js scheduler collects for one row
(`{clientId, url, ...result}`, lines 164-167). -/
structure Record where
  clientId : String
  url : String
  result : ProbeResult

/-- Chunking used by the checkStores.js scheduler (lines 155-179): rows
accumulate in `batch` and are flushed by `Promise.all` as soon as the
batch reaches `concurrencyLimit`; the final shorter batch is flushed
after the loop. -/
def toBatches {α : Type} (n : Nat) (l : List α) : List (List α) :=
  match l with
  | [] => []
  | x :: xs =>
    if _hn : n = 0 then [x :: xs]
    else (x :: xs).take n :: toBatches n ((x :: xs).drop n)
termination_by l.length
decreasing_by
  simp only [List.length_drop, List.length_cons]
  omega

/-- `processCSV` of checkStores.js (lines 149-186), restricted to its
scheduling behaviour: batches of at most 10 rows are classified by
`Promise.all`, batches sequentially, and the per-row records are
appended in order.  `net` gives each row's network behaviour. -/
def processCSV (tasks : List TaskRow) (net : TaskRow → Network) : List Record :=
  ((toBatches 10 tasks).map (fun batch =>
    batch.map (fun t =>
      { clientId := t.clientId, url := t.url, result := processURL t.url (net t) }))).flatten

/-- One parsed CSV row of the part_000 variant, as produced by
csv-parser: column name / cell value pairs in header order (csv-parser
represents an empty cell as the empty string). -/
def Row : Type := List (String × String)

/-- JS `data[key]` on a parsed row. -/
def rowLookup (row : Row) (k : String) : Option String :=
  (row.find? (fun p => p.1 == k)).map (fun p => p.2)

/-- The record the part_000 scheduler collects for one row
(`{recordId, url, ...result, ...data}`, lines 164-169).  The original
row is kept whole because the spread `...data` carries every original
field into the record. -/
structure Record2 where
  recordId : String
  url : String
  result : ProbeResult
  row : Row

/-- `Object.keys(data).filter(key => key !== 'Website URL' && key !== 'Record ID')`
(part_000 line 162). -/
def extraKeys (row : Row) : List String :=
  (row.map (fun p => p.1)).filter
    (fun k => !(k == "Website URL") && !(k == "Record ID"))

/-- JS `Set.prototype.add(x)`: insert if not already present.  `none`
models adding `undefined`. -/
def setAdd (s : List (Option String)) (x : Option String) : List (Option String) :=
  if s.contains x then s else s ++ [x]

/-- `extraColumns.add(...keys)` (part_000 line 162): the spread passes
every extra key as an argument, but `Set.add` uses only its first
argument; with no extra keys, `add()` inserts `undefined`. -/
def addSpread (s : List (Option String)) (keys : List String) : List (Option String) :=
  setAdd s keys.head?

/-- The `extraColumns` set after the part_000 read loop has seen all
rows (insertion order, as `Array.from` would list it). -/
def extraColumnsOf (rows : List Row) : List (Option String) :=
  rows.foldl (fun s row => addSpread s (extraKeys row)) []

/-- `processCSV` of part_000 (lines 148-178), restricted to its data
flow: every row is classified through the p-limit limiter and
`Promise.all` resolves with the records in row order.  An absent cell is
read as the empty string (csv-parser's representation). -/
def processCSV2 (rows : List Row) (net : Row → Network) : List Record2 :=
  rows.map (fun row =>
    let url := (rowLookup row "Website URL").getD ""
    let recordId := (rowLookup row "Record ID").getD ""
    { recordId := recordId, url := url, result := processURL url (net row), row := row })

/-- The hardcoded `expectedColumns` keys of part_000's `writeCSV`
(lines 181-188); every default value is the empty string. -/
def expectedColumnKeys : List String :=
  ["Create Date", "Number of Associated Contacts", "City", "Country/Region",
   "Last Activity Date", "Company owner"]

/-- The header row written by part_000's `writeCSV` (line 190).  A
`none` (undefined) entry in the extra-column set renders as an empty
cell, as JS `Array.join` does with an undefined element. -/
def headers2 (extraCols : List (Option String)) : List String :=
  ["Record ID", "Website URL", "isShopify", "isActive", "isPasswordProtected"]
    ++ expectedColumnKeys ++ extraCols.map (fun c => c.getD "")

/-- JS `row[col] || defaultValue` over the merged record object: the
spread `...data` placed the original row's fields last, so a column name
resolves to the original cell when present. -/
def cellOr (r : Record2) (k : String) (d : String) : String :=
  match rowLookup r.row k with
  | none => d
  | some v => if v == "" then d else v

/-- One data row written by part_000's `writeCSV` (lines 191-197), as
its list of cells. -/
def outputRow2 (extraCols : List (Option String)) (r : Record2) : List String :=
  let recordId := cellOr r "Record ID" r.recordId
  let url := cellOr r "Website URL" r.url
  [recordId, url, toString r.result.isShopify, toString r.result.isActive,
   toString r.result.isPasswordProtected]
    ++ expectedColumnKeys.map (fun k => cellOr r k "")
    ++ extraCols.map (fun c => cellOr r (c.getD "undefined") "")

/-- The verbatim pass-through rows of part_000's `writeCSV` (lines
200-207): input rows whose `Website URL` or `Record ID` cell is falsy
are re-read and appended to the report as their joined values. -/
def extraRows2 (rows : List Row) : List (List String) :=
  (rows.filter (fun row =>
    let u := (rowLookup row "Website URL").getD ""
    let i := (rowLookup row "Record ID").getD ""
    u == "" || i == "")).map (fun row => row.map (fun p => p.2))

/-- A response with which every probe succeeds: status 200, a Shopify
powered-by header, no redirect recorded. -/
def okResponse : Response :=
  { status := 200, poweredBy := some "Shopify"
    body := { hasPasswordInput := false, hasShopifyMeta := false, hasShopifyScript := false }
    responseUrl := none, configUrl := some "http://foo.myshopify.com" }

/-- A network on which every attempt of every stage fails with a
connection-level error (no HTTP response attached). -/
def allFailNet : Network :=
  { stage1 := fun _ => .error { response := none }
    stage2 := fun _ => .error { response := none }
    stage3 := .error { response := none } }

/-- A network on which every request succeeds with `okResponse`. -/
def allOkNet : Network :=
  { stage1 := fun _ => .ok okResponse
    stage2 := fun _ => .ok okResponse
    stage3 := .ok okResponse }

/-- A response attached to a failed request whose powered-by header
names Shopify: a recognizably Shopify-platformed store answering an
error status. -/
def shopifyErrResponse : Response :=
  { status := 500, poweredBy := some "Shopify"
    body := { hasPasswordInput := false, hasShopifyMeta := false, hasShopifyScript := false }
    responseUrl := none, configUrl := none }

/-- A network on which every stage-1 attempt fails with an HTTP error
response carrying a Shopify powered-by header, and the later stages
fail with connection-level errors. -/
def shopifyHeaderFailNet : Network :=
  { stage1 := fun _ => .error { response := some shopifyErrResponse }
    stage2 := fun _ => .error { response := none }
    stage3 := .error { response := none } }

/-- A parsed input row with two passthrough columns (`AAA`, `BBB`)
besides the identifier and URL, used to evaluate part_000's
extra-column handling. -/
def twoExtraRow : Row :=
  [("Record ID", "1"), ("Website URL", "http://a.com"), ("AAA", "x"), ("BBB", "y")]

/-- A parsed input row whose `Website URL` cell is empty (csv-parser's
representation of a missing URL). -/
def noUrlRow : Row :=
  [("Record ID", "2"), ("Website URL", ""), ("CCC", "z")]

/-- The retry loop never issues more attempts than it has iterations
left: starting at attempt index `i` with `remaining` iterations, the
final attempt count is at most `i + remaining`. -/
theorem axiosRetryGo_attempts_le (net : Nat → Except AxiosError Response)
    (backoff : Nat) (i remaining : Nat) :
    (axiosRetryGo net backoff i remaining).attempts ≤ i + remaining := by
  induction remaining generalizing i with
  | zero => simp [axiosRetryGo]
  | succ m ih =>
    simp only [axiosRetryGo]
    cases net i with
    | ok r => simp
    | error e =>
      by_cases hm : m = 0
      · simp [hm]
      · have := ih (i + 1)
        simp [hm]
        omega

/-- The retry loop issues at least one attempt when at least one
iteration is available. -/
theorem axiosRetryGo_attempts_pos (net : Nat → Except AxiosError Response)
    (backoff : Nat) (i remaining : Nat) (h : 1 ≤ remaining) :
    i + 1 ≤ (axiosRetryGo net backoff i remaining).attempts := by
  induction remaining generalizing i with
  | zero => omega
  | succ m ih =>
    simp only [axiosRetryGo]
    cases net i with
    | ok r => simp
    | error e =>
      by_cases hm : m = 0
      · simp [hm]
      · have := ih (i + 1) (by omega)
        simp [hm]
        omega

/-- Claim C4: `axiosRetry` with retry count 2 makes at most 2 HTTP
attempts per call; after the first attempt fails it waits
`backoff * 1 = 3000` ms before the second attempt, and when the second
(final allowed) attempt fails it surfaces that second error to the
caller without a further attempt — `net 2` is unconstrained here, so a
third attempt that would succeed is never consulted. -/
theorem c4_retry_cap_and_backoff (net : Nat → Except AxiosError Response)
    (e0 e1 : AxiosError) (h0 : net 0 = .error e0) (h1 : net 1 = .error e1) :
    (∀ m : Nat → Except AxiosError Response, (axiosRetry m 2 3000).attempts ≤ 2) ∧
    (axiosRetry net 2 3000).result = .error e1 ∧
    (axiosRetry net 2 3000).attempts = 2 ∧
    (axiosRetry net 2 3000).waits = [3000 * 1] := by
  refine ⟨fun m => axiosRetryGo_attempts_le m 3000 0 2, ?_, ?_, ?_⟩ <;>
    simp [axiosRetry, axiosRetryGo, h0, h1]

/-- Witness for C4 at a concrete network that fails twice and would
succeed on a third attempt. -/
theorem c4_witness :
    (axiosRetry
      (fun i => if i = 0 then .error { response := none }
                else if i = 1 then .error { response := some okResponse }
                else .ok okResponse) 2 3000).result
        = .error { response := some okResponse } ∧
    (axiosRetry
      (fun i => if i = 0 then .error { response := none }
                else if i = 1 then .error { response := some okResponse }
                else .ok okResponse) 2 3000).attempts = 2 :=
  ⟨(c4_retry_cap_and_backoff _ { response := none } { response := some okResponse }
      (by rfl) (by rfl)).2.1,
   (c4_retry_cap_and_backoff _ { response := none } { response := some okResponse }
      (by rfl) (by rfl)).2.2.1⟩

/-- Claim C1 (amended): for a URL containing a hosted-subdomain marker,
Stage 1 classifies it as Shopify before consulting the header or body —
but only when the HTTP request issued first (line 35 precedes the marker
check on line 38) succeeds, and the platform-detection stage always
issues at least one HTTP attempt, never zero. -/
theorem c1_marker_after_request (url : String)
    (net : Nat → Except AxiosError Response) (r : Response)
    (hok : (axiosRetry net 2 3000).result = .ok r)
    (hm : (strIncludes url ".myshopify.com" || strIncludes url "shopify.com") = true) :
    isShopifyStore url net = { isShopify := true, isPasswordProtected := false } ∧
    1 ≤ (axiosRetry net 2 3000).attempts := by
  constructor
  · simp [isShopifyStore, hok, hm]
  · exact axiosRetryGo_attempts_pos net 3000 0 2 (by omega)

/-- Counterexample to C1 as stated: the URL `http://foo.myshopify.com`
contains the marker, yet when the network is down (both attempts fail
without an HTTP response) Stage 1 classifies it as NOT Shopify, and the
platform-detection stage has issued 2 HTTP attempts, not zero. -/
theorem c1_counterexample :
    (isShopifyStore "http://foo.myshopify.com"
        (fun _ => .error { response := none })).isShopify = false ∧
    (axiosRetry (fun _ => (.error { response := none } : Except AxiosError Response))
        2 3000).attempts = 2 := by
  constructor <;> rfl

/-- Witness for the amended C1 at a concrete marker URL and a network
whose first attempt succeeds. -/
theorem c1_witness :
    isShopifyStore "http://foo.myshopify.com" (fun _ => .ok okResponse)
        = { isShopify := true, isPasswordProtected := false } ∧
    1 ≤ (axiosRetry (fun _ => (.ok okResponse : Except AxiosError Response))
        2 3000).attempts :=
  c1_marker_after_request "http://foo.myshopify.com" _ okResponse (by rfl) (by decide)

/-- Shared helper: the stage chain of `processURL` — liveness is only
ever true when platform detection succeeded, and the password flag only
when liveness succeeded. -/
theorem processURL_chain (url : String) (net : Network) :
    ((processURL url net).isActive = true → (processURL url net).isShopify = true) ∧
    ((processURL url net).isPasswordProtected = true →
      (processURL url net).isActive = true) := by
  unfold processURL
  dsimp only
  split <;> split <;> (try split) <;> simp_all

/-- Claim C3: for every URL and network outcome, the ProbeResult
satisfies the chain `isActive → isShopify` and
`isPasswordProtected → isActive` (Stage 2 runs only after Stage 1
returned true, Stage 3 only after Stage 2 returned true). -/
theorem c3_probe_result_chain (url : String) (net : Network) :
    ((processURL url net).isActive = true → (processURL url net).isShopify = true) ∧
    ((processURL url net).isPasswordProtected = true →
      (processURL url net).isActive = true) :=
  processURL_chain url net

/-- Witness for C3 at a concrete URL and a fully successful network,
where `isActive` is in fact true. -/
theorem c3_witness :
    (processURL "foo.myshopify.com" allOkNet).isShopify = true ∧
    (processURL "foo.myshopify.com" allOkNet).isActive = true :=
  ⟨(c3_probe_result_chain "foo.myshopify.com" allOkNet).1 (by decide), by decide⟩

/-- Counterexample to C2 as stated: on `shopifyHeaderFailNet` every
stage-1 attempt fails, yet the failure does not resolve to the
conservative default `false` — the Shopify powered-by header on the
error response makes `isShopify` true (checkStores.js lines 53-57). -/
theorem c2_counterexample :
    (axiosRetry shopifyHeaderFailNet.stage1 2 3000).result
        = .error { response := some shopifyErrResponse } ∧
    (processURL "example.com" shopifyHeaderFailNet).isShopify = true := by
  constructor <;> rfl

/-- Claim C2 (amended): `processURL` is total — it always returns a
ProbeResult and no error propagates to the caller — and every failure
resolves to a definite boolean, but not always the conservative
default: a stage-1 failure resolves to the all-false record unless its
error response carries a Shopify powered-by header, in which case it
resolves to `isShopify = true`; stage-2 and stage-3 failures always
force their fields to false. -/
theorem c2_total_conservative_amended (url : String) (net : Network) :
    (∃ r : ProbeResult, processURL url net = r) ∧
    (∀ e : AxiosError, (axiosRetry net.stage1 2 3000).result = .error e →
      (match e.response with
       | some r => poweredByShopify r.poweredBy
       | none => false) = false →
      processURL url net =
        { isShopify := false, isActive := false, isPasswordProtected := false }) ∧
    (∀ (e : AxiosError) (r : Response),
      (axiosRetry net.stage1 2 3000).result = .error e →
      e.response = some r → poweredByShopify r.poweredBy = true →
      (processURL url net).isShopify = true) ∧
    (∀ e : AxiosError, (axiosRetry net.stage2 2 3000).result = .error e →
      (processURL url net).isActive = false ∧
      (processURL url net).isPasswordProtected = false) ∧
    (∀ e : AxiosError, net.stage3 = .error e →
      (processURL url net).isPasswordProtected = false) := by
  refine ⟨⟨processURL url net, rfl⟩, ?_, ?_, ?_, ?_⟩
  · intro e h1 hhdr
    have hs : ∀ u, (isShopifyStore u net.stage1).isShopify = false := by
      intro u
      unfold isShopifyStore
      rw [h1]
      cases hr : e.response with
      | none => simp [hr]
      | some r =>
        simp only [hr] at hhdr
        simp [hr, hhdr]
    unfold processURL
    dsimp only
    split <;> simp_all
  · intro e r h1 hr hhdr
    have hs : ∀ u, (isShopifyStore u net.stage1).isShopify = true := by
      intro u
      unfold isShopifyStore
      rw [h1]
      simp [hr, hhdr]
    unfold processURL
    dsimp only
    split <;> split <;> (try split) <;> simp_all
  · intro e h2
    have hc : checkURL net.stage2 = false := by simp [checkURL, h2]; split <;> simp
    unfold processURL
    dsimp only
    split <;> split <;> simp_all
  · intro e h3
    have hp : checkPasswordProtection net.stage3 = false := by
      rw [h3]; unfold checkPasswordProtection; split <;> simp_all <;> split <;> simp
    unfold processURL
    dsimp only
    split <;> split <;> (try split) <;> simp_all

/-- Witness for the amended C2 at two concrete networks: one failing
without responses (all conservative defaults) and one failing with
Shopify-headered error responses (the stage-1 exception). -/
theorem c2_witness :
    processURL "example.com" allFailNet
        = { isShopify := false, isActive := false, isPasswordProtected := false } ∧
    (processURL "example.com" shopifyHeaderFailNet).isShopify = true ∧
    (processURL "example.com" shopifyHeaderFailNet).isPasswordProtected = false :=
  ⟨(c2_total_conservative_amended "example.com" allFailNet).2.1
      { response := none } (by rfl) (by rfl),
   (c2_total_conservative_amended "example.com" shopifyHeaderFailNet).2.2.1
      { response := some shopifyErrResponse } shopifyErrResponse
      (by rfl) (by rfl) (by decide),
   (c2_total_conservative_amended "example.com" shopifyHeaderFailNet).2.2.2.2
      { response := none } (by rfl)⟩

/-- Claim C6: when the Stage-2 request succeeds within the retry budget,
`checkURL` returns exactly `status == 200`; on any request failure —
including a failure response carrying a Shopify powered-by header, and a
404 — it returns false (and, being a total function, never throws). -/
theorem c6_checkURL_status (net : Nat → Except AxiosError Response) :
    (∀ r : Response, (axiosRetry net 2 3000).result = .ok r →
      checkURL net = (r.status == 200)) ∧
    (∀ e : AxiosError, (axiosRetry net 2 3000).result = .error e →
      checkURL net = false) := by
  constructor
  · intro r h; simp [checkURL, h]
  · intro e h; simp [checkURL, h]; split <;> simp

/-- Witness for C6: a network answering 200 on the first attempt gives
`checkURL = true`, and an all-failing network gives `checkURL = false`.
(The two networks are distinct concrete inputs of the same theorem.) -/
theorem c6_witness :
    checkURL (fun _ => .ok okResponse) = (okResponse.status == 200) ∧
    checkURL (fun _ => .error { response := some okResponse }) = false :=
  ⟨(c6_checkURL_status _).1 okResponse (by rfl),
   (c6_checkURL_status _).2 { response := some okResponse } (by rfl)⟩

/-- Claim C5: `checkPasswordProtection` returns true exactly when the
request (redirects followed up to 5, any status below 400 accepted)
succeeded, the final URL — `responseUrl` with fallback to the
configured URL — is determinable (present and non-empty), ends in
`/password`, and the body contains a password-type input; an
undeterminable final URL, a final URL not ending in the gate path, and
every request failure (redirect-status error, 404, or any other) all
yield false. -/
theorem c5_checkPasswordProtection_iff (outcome : Except AxiosError Response) :
    checkPasswordProtection outcome = true ↔
      ∃ (r : Response) (u : String),
        outcome = .ok r ∧
        jsOrStr r.responseUrl r.configUrl = some u ∧
        (u == "") = false ∧
        strEndsWith u "/password" = true ∧
        r.body.hasPasswordInput = true := by
  cases outcome with
  | ok r =>
    constructor
    · intro h
      unfold checkPasswordProtection at h
      cases hu : jsOrStr r.responseUrl r.configUrl with
      | none => simp [hu] at h
      | some u =>
        simp only [hu] at h
        split at h
        next h1 => exact absurd h (by simp)
        next h1 =>
          split at h
          next hend => exact ⟨r, u, rfl, hu, by simpa using h1, hend, h⟩
          next hend => exact absurd h (by simp)
    · rintro ⟨r', u, heq, hu, hne, hend, hinp⟩
      cases heq
      simp [checkPasswordProtection, hu, hne, hend, hinp]
  | error e =>
    constructor
    · intro h
      exfalso
      unfold checkPasswordProtection at h
      cases he : e.response with
      | none => simp [he] at h
      | some r =>
        simp only [he] at h
        split at h
        next => exact absurd h (by simp)
        next =>
          split at h
          next => exact absurd h (by simp)
          next => exact absurd h (by simp)
    · rintro ⟨r', u, heq, _⟩
      exact absurd heq (by simp)

/-- Claim C10: when the response records no redirect URL
(`response.request.res.responseUrl` undefined), the final URL falls back
to `response.config.url` — the originally requested URL — so a request
whose own URL already ends in `/password` and whose body contains a
password-type input yields true even though no redirect occurred. -/
theorem c10_no_redirect_fallback (url : String) (r : Response)
    (hres : r.responseUrl = none) (hcfg : r.configUrl = some url)
    (hend : strEndsWith url "/password" = true)
    (hinp : r.body.hasPasswordInput = true) :
    checkPasswordProtection (.ok r) = true := by
  have hne : (url == "") = false := by
    cases hu : url == "" with
    | false => rfl
    | true =>
      have : url = "" := by simpa using hu
      subst this
      exact absurd hend (by decide)
  have hfall : jsOrStr r.responseUrl r.configUrl = some url := by
    simp [jsOrStr, hres, hcfg]
  simp [checkPasswordProtection, hfall, hne, hend, hinp]

/-- Witness for C10: a concrete response with no redirect URL whose
requested URL ends in `/password` and whose body has a password input. -/
theorem c10_witness :
    checkPasswordProtection (.ok
      { status := 200, poweredBy := none
        body := { hasPasswordInput := true, hasShopifyMeta := false,
                  hasShopifyScript := false }
        responseUrl := none, configUrl := some "http://a.com/password" }) = true :=
  c10_no_redirect_fallback "http://a.com/password" _ rfl rfl (by decide) rfl

/-- Flushing the batches in order reproduces the input row sequence. -/
theorem toBatches_flatten {α : Type} (n : Nat) (hn : n ≠ 0) (l : List α) :
    (toBatches n l).flatten = l := by
  cases l with
  | nil => simp [toBatches]
  | cons x xs =>
    have ih := toBatches_flatten n hn ((x :: xs).drop n)
    simp only [toBatches, dif_neg hn]
    simp [ih]
termination_by l.length
decreasing_by
  simp only [List.length_drop, List.length_cons]
  omega

/-- Every batch the scheduler flushes has at most `n` rows. -/
theorem toBatches_batch_length_le {α : Type} (n : Nat) (hn : n ≠ 0)
    (l : List α) : ∀ b ∈ toBatches n l, b.length ≤ n := by
  cases l with
  | nil => simp [toBatches]
  | cons x xs =>
    have ih := toBatches_batch_length_le n hn ((x :: xs).drop n)
    intro b hb
    simp only [toBatches, dif_neg hn] at hb
    rcases List.mem_cons.mp hb with h | h
    · subst h
      simp only [List.length_take]
      omega
    · exact ih b h
termination_by l.length
decreasing_by
  simp only [List.length_drop, List.length_cons]
  omega

/-- The batching scheduler is, as a function of the data, the pointwise
classification of every row in order. -/
theorem processCSV_eq_map (tasks : List TaskRow) (net : TaskRow → Network) :
    processCSV tasks net = tasks.map (fun t =>
      { clientId := t.clientId, url := t.url,
        result := processURL t.url (net t) }) := by
  unfold processCSV
  rw [← List.map_flatten, toBatches_flatten 10 (by omega) tasks]

/-- Claim C8: the scheduler in both variants executes the classifier for
every task and returns exactly one record per input task, in input
order, each carrying its originating row identifier, and never drops or
fails a task; the batching variant ships at most 10 classifications per
`Promise.all` round (the in-flight bound), the p-limit variant caps
in-flight work at 20 by the limiter's contract (external library,
modelled as order-preserving execution). -/
theorem c8_scheduler_complete_bounded (tasks : List TaskRow)
    (net : TaskRow → Network) (rows : List Row) (net2 : Row → Network) :
    ((toBatches 10 tasks).all (fun b => decide (b.length ≤ 10))) = true ∧
    (processCSV tasks net).length = tasks.length ∧
    (processCSV tasks net).map (fun r => r.clientId)
        = tasks.map (fun t => t.clientId) ∧
    (processCSV tasks net).map (fun r => r.result)
        = tasks.map (fun t => processURL t.url (net t)) ∧
    (processCSV2 rows net2).length = rows.length ∧
    (processCSV2 rows net2).map (fun r => r.recordId)
        = rows.map (fun row => (rowLookup row "Record ID").getD "") := by
  refine ⟨?_, ?_, ?_, ?_, ?_, ?_⟩
  · rw [List.all_eq_true]
    intro b hb
    simpa using toBatches_batch_length_le 10 (by omega) tasks b hb
  · rw [processCSV_eq_map]; simp
  · rw [processCSV_eq_map]; simp
  · rw [processCSV_eq_map]; simp
  · simp [processCSV2]
  · simp [processCSV2]

/-- Claim C7 (evaluation at the failing input): for a classified row
with two passthrough columns `AAA` and `BBB`, the spread call
`extraColumns.add(...keys)` records only the first extra column, so
`BBB` is missing from the report's headers and the value `y` is missing
from the row's output cells — the passthrough fields are NOT all
preserved.  Moreover a row with an empty URL cell is appended to the
report verbatim, yet is still classified (one record is produced for
it), contradicting the claim that such rows are not classified. -/
theorem c7_extra_column_dropped :
    extraColumnsOf [twoExtraRow] = [some "AAA"] ∧
    ¬ "BBB" ∈ headers2 (extraColumnsOf [twoExtraRow]) ∧
    (∀ rec ∈ processCSV2 [twoExtraRow] (fun _ => allFailNet),
      ¬ "y" ∈ outputRow2 (extraColumnsOf [twoExtraRow]) rec) ∧
    extraRows2 [noUrlRow] = [["2", "", "z"]] ∧
    (processCSV2 [noUrlRow] (fun _ => allFailNet)).length = 1 := by
  refine ⟨by decide, by decide, by decide, by decide, by decide⟩
